import Mathlib

/-
Shallow embedding of the anomaly-detection pipeline of src/app.py
(auditorIA).  The pipeline reads a tabular dataset, normalizes headers,
parses the time column, derives features and flags outliers.  Numeric
amounts are modelled as integers, missing cells as Option, the pandas
dataframe as a list of rows plus the list of (renamed) headers.  Date
parsing (pandas to_datetime) and the scaler-plus-isolation-forest model
are taken as parameters, since their internals live outside the
repository; the error behaviour of the scaler stage is modelled from the
documented library contract.
-/

namespace AuditorIA

/-- Value of the Cuenta (account) column cell: numeric, a string
identifier, or a missing value (NaN). -/
inductive Celda where
  | num (z : ℤ)
  | str (s : String)
  | nulo
deriving DecidableEq, Repr

/-- One input row after reading the CSV.  The fields documento and hora
hold the cell value when the corresponding column exists (none models a
NaN cell); otros carries the cells of extraneous columns, which the
pipeline never touches. -/
structure Fila where
  fecha : String
  cuenta : Celda
  debe : Option ℤ
  haber : Option ℤ
  documento : Option String
  hora : Option String
  otros : List String
deriving DecidableEq, Repr

/-- Synonym table of src/app.py lines 77-81: lowercased raw header to
canonical column name. -/
def mapeo_columnas : List (String × String) :=
  [("fecha", "Fecha"), ("cuenta", "Cuenta"), ("debe", "Debe"), ("haber", "Haber"),
   ("documento", "Documento"), ("referencia", "Documento"), ("factura", "Documento"),
   ("hora", "Hora"), ("hora operacion", "Hora"), ("hora operación", "Hora")]

/-- Whitespace characters stripped by str.strip(). -/
def esEspacio (c : Char) : Bool :=
  c == ' ' || c == '\t' || c == '\n' || c == '\r'

/-- Modelled from str.strip(): drop whitespace at both ends. -/
def recortar (s : String) : String :=
  String.mk ((s.data.dropWhile esEspacio).reverse.dropWhile esEspacio).reverse

/-- Modelled from str.lower() on the ASCII range; the one accented vowel
of the synonym table is already lowercase in every recognized header. -/
def bajarChar (c : Char) : Char :=
  if 'A' ≤ c ∧ c ≤ 'Z' then Char.ofNat (c.toNat + 32) else c

def minusculas (s : String) : String := String.mk (s.data.map bajarChar)

/-- Header normalization (lines 76-82): strip, lowercase, then rename
through the synonym table; unrecognized headers keep their lowered form. -/
def renombrar (h : String) : String :=
  let k := minusculas (recortar h)
  match mapeo_columnas.lookup k with
  | some c => c
  | none => k

def columnas_obligatorias : List String := ["Fecha", "Cuenta", "Debe", "Haber"]

def columnas_opcionales : List String := ["Documento", "Hora"]

/-- Required canonical columns absent from the renamed header list
(line 87). -/
def faltan_obligatorias (enc : List String) : List String :=
  columnas_obligatorias.filter (fun c => !(enc.contains c))

/-- Optional canonical columns absent from the renamed header list
(line 88). -/
def faltan_opcionales (enc : List String) : List String :=
  columnas_opcionales.filter (fun c => !(enc.contains c))

/-- Present columns that are neither required nor optional (line 89). -/
def columnas_extra (enc : List String) : List String :=
  enc.filter (fun c => !(columnas_obligatorias.contains c || columnas_opcionales.contains c))

/-- The string handed to the per-value time parser: the cell text
stripped, with a NaN cell printed as "nan" (astype(str).str.strip() of
line 100). -/
def valorHora (c : Option String) : String :=
  match c with
  | some s => recortar s
  | none => "nan"

/-- Value of a list of decimal digits, as read by int(). -/
def valorNatDe (cs : List Char) : ℕ :=
  cs.foldl (fun n c => 10 * n + (c.toNat - 48)) 0

/-- Split on a separator character, mirroring str.split for a one
character separator: "07:45" gives the two pieces around the colon. -/
def trozos (c : Char) : List Char → List (List Char)
  | [] => [[]]
  | a :: as =>
    if a == c then [] :: trozos c as
    else
      match trozos c as with
      | [] => [[a]]
      | t :: ts => (a :: t) :: ts

/-- Modelled from the strptime contract used at line 103
(pd.to_datetime with format "%H:%M"): one or two digits of hour in 0-23,
a colon, one or two digits of minutes in 0-59, nothing else; the hour
component is returned. -/
def parse_hhmm (s : String) : Option ℤ :=
  match trozos ':' s.data with
  | [h, m] =>
    if 1 ≤ h.length ∧ h.length ≤ 2 ∧ h.all Char.isDigit ∧
       1 ≤ m.length ∧ m.length ≤ 2 ∧ m.all Char.isDigit then
      if valorNatDe h ≤ 23 ∧ valorNatDe m ≤ 59 then some (valorNatDe h : ℤ) else none
    else none
  | _ => none

/-- The isdigit test of line 105: nonempty and all characters digits. -/
def esDigitos (s : String) : Bool :=
  decide (s.data ≠ []) && s.data.all Char.isDigit

/-- Modelled from the int() builtin used at lines 106 and 109: an
optional sign followed by one or more digits, anything else fails. -/
def int_py (s : String) : Option ℤ :=
  match s.data with
  | [] => none
  | '+' :: resto =>
    if resto ≠ [] ∧ resto.all Char.isDigit then some (valorNatDe resto : ℤ) else none
  | '-' :: resto =>
    if resto ≠ [] ∧ resto.all Char.isDigit then some (-(valorNatDe resto : ℤ)) else none
  | cs =>
    if cs.all Char.isDigit then some (valorNatDe cs : ℤ) else none

/-- The per-value time parser of lines 101-110, rules tried in order:
colon means HH:MM and take the hour; an all-digit string longer than two
characters is integer-divided by 100; otherwise a direct integer parse;
every failure yields none instead of raising. -/
def parse_hora (valor : String) : Option ℤ :=
  if valor.data.contains ':' then parse_hhmm valor
  else if esDigitos valor && decide (2 < valor.data.length) then
    some ((valorNatDe valor.data : ℤ) / 100)
  else int_py valor

/-- Row-wise maximum of the Debe and Haber cells with the pandas
skipna semantics of line 115: a missing side is skipped, both missing
gives a missing result. -/
def maxSkipna (a b : Option ℤ) : Option ℤ :=
  match a, b with
  | some x, some y => some (max x y)
  | some x, none => some x
  | none, some y => some y
  | none, none => none

def importeDe (f : Fila) : Option ℤ := maxSkipna f.debe f.haber

def digitosAux : ℕ → ℕ → List Char
  | 0, _ => []
  | fuel + 1, n => if n = 0 then [] else digitosAux fuel (n / 10) ++ [Nat.digitChar (n % 10)]

/-- Decimal digits of a natural number, most significant first. -/
def representacionNat (n : ℕ) : List Char :=
  if n = 0 then ['0'] else digitosAux (n + 1) n

/-- Modelled from str() on a Python int: an optional minus sign and the
decimal digits, with no thousands separators. -/
def representacionInt (z : ℤ) : List Char :=
  match z with
  | Int.ofNat n => representacionNat n
  | Int.negSucc n => '-' :: representacionNat (n + 1)

/-- The dtype of the Debe and Haber columns after read_csv: int64 when
every cell is an integer, float64 as soon as one cell is missing; the
derived Importe column of line 115 is then float64 too.  Amounts are
integers in this model, so a missing cell is the one float trigger
(fractional input amounts, the other trigger, are outside the model). -/
def esFlotante (filas : List Fila) : Bool :=
  filas.any (fun f => f.debe.isNone || f.haber.isNone)

/-- Text form of an Importe cell as produced by astype(str) at line 118:
in an int64 column the decimal digits; in a float64 column a present
amount prints with a ".0" suffix; a missing value prints as "nan". -/
def textoImporte (flotante : Bool) (imp : Option ℤ) : String :=
  match imp with
  | some z =>
    if flotante then String.mk (representacionInt z ++ ['.', '0'])
    else String.mk (representacionInt z)
  | none => "nan"

def esPrefijo : List Char → List Char → Bool
  | [], _ => true
  | _ :: _, [] => false
  | a :: as, b :: bs => a == b && esPrefijo as bs

/-- Modelled from str.endswith: the argument is a suffix of the text. -/
def terminaEn (s : String) (sufijo : String) : Bool :=
  esPrefijo sufijo.data.reverse s.data.reverse

/-- The rounded-amount flag of line 118: the astype(str) text of the
Importe cell, which depends on the dtype of the column, ends with "000"
or with "99". -/
def redondeadoDe (flotante : Bool) (imp : Option ℤ) : Bool :=
  terminaEn (textoImporte flotante imp) "000" || terminaEn (textoImporte flotante imp) "99"

/-- The out-of-hours flag of lines 116-117: comparisons of a missing
normalized hour are false, otherwise the hour is below 8 or above 18. -/
def fueraHorarioDe (hn : Option ℤ) : Bool :=
  match hn with
  | some h => decide (h < 8) || decide (18 < h)
  | none => false

/-- Key of the duplicate check of line 119: the raw Fecha text (the
column is only parsed afterwards at line 120), the Cuenta cell, the
derived Importe and the Documento cell. -/
def claveDup (f : Fila) : String × Celda × Option ℤ × Option String :=
  (f.fecha, f.cuenta, importeDe f, f.documento)

/-- duplicated(subset, keep=False) of line 119: a row is flagged when
its key occurs at least twice in the dataset. -/
def duplicadoDe (filas : List Fila) (f : Fila) : Bool :=
  decide (2 ≤ (filas.filter (fun g => decide (claveDup g = claveDup f))).length)

/-- Minimum of the parseable dates of the batch (line 121); none when no
date parses. -/
def minFecha (parse : String → Option ℤ) (filas : List Fila) : Option ℤ :=
  (filas.filterMap (fun f => parse f.fecha)).foldr
    (fun d acc => match acc with | none => some d | some m => some (min d m)) none

/-- Days since the minimum date of the batch (line 121); none when this
date or the minimum is missing. -/
def fechaNumDe (parse : String → Option ℤ) (filas : List Fila) (f : Fila) : Option ℤ :=
  match parse f.fecha, minFecha parse filas with
  | some d, some m => some (d - m)
  | _, _ => none

/-- A row of the feature matrix of line 122: kept by dropna exactly when
Fecha_Num, Cuenta and Importe are all non-missing.  A string Cuenta cell
is not NaN, so it survives dropna and reaches the scaler. -/
def filaFeature (parse : String → Option ℤ) (filas : List Fila) (f : Fila) :
    Option (ℤ × Celda × ℤ) :=
  match fechaNumDe parse filas f, importeDe f with
  | some fn, some im =>
    match f.cuenta with
    | Celda.nulo => none
    | c => some (fn, c, im)
  | _, _ => none

def features (parse : String → Option ℤ) (filas : List Fila) : List (ℤ × Celda × ℤ) :=
  filas.filterMap (filaFeature parse filas)

/-- Errors surfaced by the run: the fatal schema error of lines 91-93, a
KeyError from accessing a missing column, and a ValueError escalated by
the numeric stage.  Any error reaches the blanket handler of line 236:
the run shows a message and produces no annotated output. -/
inductive Err where
  | schema (faltan : List String)
  | clave (columna : String)
  | valor (mensaje : String)
deriving DecidableEq, Repr

def esTexto : Celda → Bool
  | Celda.str _ => true
  | _ => false

def celdaNum : Celda → ℤ
  | Celda.num z => z
  | _ => 0

/-- Modelled from the library contract of the scaler and model calls of
lines 123-125: fit_transform raises ValueError on an empty matrix and on
data it cannot convert to float (string account identifiers); otherwise
the standardization composed with the isolation-forest prediction is the
abstract parameter modelo, one Boolean per feature row. -/
def puntuar (modelo : List (ℤ × ℤ × ℤ) → List Bool)
    (feats : List (ℤ × Celda × ℤ)) : Except Err (List Bool) :=
  if feats.isEmpty then Except.error (Err.valor "Found array with 0 samples")
  else if feats.any (fun t => esTexto t.2.1) then
    Except.error (Err.valor "could not convert string to float")
  else Except.ok (modelo (feats.map (fun t => (t.1, celdaNum t.2.1, t.2.2))))

/-- The Fecha cell after line 120 overwrites the column with its parsed
value: a timestamp day number, or NaT.  The raw uploaded text would be
the texto constructor, which no longer occurs after that line. -/
inductive ValorFecha where
  | texto (s : String)
  | marca (d : ℤ)
  | nulo
deriving DecidableEq, Repr

/-- One row of the annotated output: the original cells (with Fecha
overwritten by its parsed value) plus the seven derived fields. -/
structure FilaAnotada where
  fecha : ValorFecha
  cuenta : Celda
  debe : Option ℤ
  haber : Option ℤ
  documento : Option String
  hora : Option String
  otros : List String
  horaNormalizada : Option ℤ
  importe : Option ℤ
  fueraHorario : Bool
  redondeado : Bool
  duplicado : Bool
  fechaNum : Option ℤ
  outlier : Bool
deriving DecidableEq, Repr

/-- Annotation of a single row by lines 111 and 115-121, before the
outlier column is filled in (line 126 initializes it to false). -/
def anotarSin (parse : String → Option ℤ) (tieneDoc : Bool) (filas : List Fila)
    (f : Fila) : FilaAnotada :=
  { fecha := match parse f.fecha with
      | some d => ValorFecha.marca d
      | none => ValorFecha.nulo
    cuenta := f.cuenta
    debe := f.debe
    haber := f.haber
    documento := f.documento
    hora := f.hora
    otros := f.otros
    horaNormalizada := parse_hora (valorHora f.hora)
    importe := importeDe f
    fueraHorario := fueraHorarioDe (parse_hora (valorHora f.hora))
    redondeado := redondeadoDe (esFlotante filas) (importeDe f)
    duplicado := if tieneDoc then duplicadoDe filas f else false
    fechaNum := fechaNumDe parse filas f
    outlier := false }

/-- Feature-row test on an annotated row, matching dropna of line 122. -/
def esFeatureA (g : FilaAnotada) : Bool :=
  g.fechaNum.isSome && g.importe.isSome && !(decide (g.cuenta = Celda.nulo))

/-- Positional write-back of the model predictions into the feature rows
(line 127): feature rows consume the prediction list in order, the other
rows keep outlier false. -/
def repartir (esF : FilaAnotada → Bool) : List FilaAnotada → List Bool → List FilaAnotada
  | [], _ => []
  | g :: gs, outs =>
    if esF g then { g with outlier := outs.headD false } :: repartir esF gs (outs.drop 1)
    else g :: repartir esF gs outs

/-- Output of a successful run: the non-fatal column classification of
lines 88-97 and the annotated rows. -/
structure Resultado where
  faltanOpcionales : List String
  columnasExtra : List String
  filas : List FilaAnotada
deriving DecidableEq, Repr

/-- The whole run of lines 76-131 on an uploaded dataset: rename the
headers, abort on missing required columns, fail with a KeyError when
the Hora column is absent (normalizar_hora reads it unconditionally at
line 100), annotate every row, and fill the outlier column from the
scored feature matrix; any scaler error aborts the run. -/
def ejecutar (parse : String → Option ℤ) (modelo : List (ℤ × ℤ × ℤ) → List Bool)
    (encCrudos : List String) (filas : List Fila) : Except Err Resultado :=
  if faltan_obligatorias (encCrudos.map renombrar) = [] then
    if (encCrudos.map renombrar).contains "Hora" then
      match puntuar modelo (features parse filas) with
      | Except.error e => Except.error e
      | Except.ok outs =>
        Except.ok
          { faltanOpcionales := faltan_opcionales (encCrudos.map renombrar)
            columnasExtra := columnas_extra (encCrudos.map renombrar)
            filas := repartir esFeatureA
              (filas.map (anotarSin parse ((encCrudos.map renombrar).contains "Documento") filas))
              outs }
    else Except.error (Err.clave "Hora")
  else Except.error (Err.schema (faltan_obligatorias (encCrudos.map renombrar)))

/-- A concrete date parser standing in for pandas to_datetime in the
concrete runs below: it recognizes three dates of the sample file. -/
def pW : String → Option ℤ := fun s =>
  if s = "2024-01-01" then some 0
  else if s = "2024-01-02" then some 1
  else if s = "2024-01-03" then some 2
  else none

/-- A concrete instance of the abstract scaler-plus-model map for the
concrete runs below: one prediction per feature row, none anomalous. -/
def mW : List (ℤ × ℤ × ℤ) → List Bool := fun l => l.map (fun _ => false)

/-- Raw headers of the sample file of lines 50-57. -/
def encW : List String := ["fecha", "cuenta", "debe", "haber", "documento", "hora"]

def filaW0 : Fila :=
  { fecha := "2024-01-01", cuenta := Celda.num 100, debe := some 1000, haber := some 0,
    documento := some "INV001", hora := some "07:45", otros := [] }

def filaW2 : Fila :=
  { fecha := "2024-01-02", cuenta := Celda.num 4300, debe := some 0, haber := some 1000,
    documento := some "INV002", hora := some "12:00", otros := [] }

def filaW3 : Fila :=
  { fecha := "2024-01-03", cuenta := Celda.num 1000, debe := some 1500, haber := some 0,
    documento := some "COMPRA1", hora := some "20:00", otros := [] }

def filaW4 : Fila :=
  { fecha := "2024-01-01", cuenta := Celda.num 7, debe := none, haber := none,
    documento := some "X1", hora := some "abc", otros := [] }

/-- Sample dataset: the two duplicate rows of the example file, two
further rows, and a row with missing amounts and unparseable time. -/
def filasW : List Fila := [filaW0, filaW0, filaW2, filaW3, filaW4]

def resDefecto : Resultado := { faltanOpcionales := [], columnasExtra := [], filas := [] }

def resWval : Resultado := (ejecutar pW mW encW filasW).toOption.getD resDefecto

def filaAnotadaDef : FilaAnotada :=
  { fecha := ValorFecha.nulo, cuenta := Celda.nulo, debe := none, haber := none,
    documento := none, hora := none, otros := [], horaNormalizada := none,
    importe := none, fueraHorario := false, redondeado := false, duplicado := false,
    fechaNum := none, outlier := false }

def filaC3a : Fila :=
  { fecha := "2024-01-01", cuenta := Celda.num 1, debe := none, haber := none,
    documento := some "D1", hora := some "09:00", otros := [] }

def filaC3b : Fila := { filaC3a with debe := some (-5), documento := some "D2" }

def filaC3c : Fila := { filaC3a with debe := some 5, haber := some 0, documento := some "D3" }

/-- Dataset with a row whose two amounts are both missing, a row with a
negative single amount, and an ordinary row. -/
def filasC3 : List Fila := [filaC3a, filaC3b, filaC3c]

def resC3val : Resultado := (ejecutar pW mW encW filasC3).toOption.getD resDefecto

/-- A row whose account is a string identifier. -/
def filaCstr : Fila :=
  { fecha := "2024-01-01", cuenta := Celda.str "ABC", debe := some 5, haber := some 0,
    documento := some "D1", hora := some "12:00", otros := [] }

/-- A row whose date does not parse, so every feature row is dropped. -/
def filaCmal : Fila :=
  { fecha := "notadate", cuenta := Celda.num 1, debe := some 5, haber := some 0,
    documento := some "D1", hora := some "12:00", otros := [] }

/-- A single ordinary row: a one-row, zero-variance feature matrix. -/
def filaC7 : Fila :=
  { fecha := "2024-01-01", cuenta := Celda.num 100, debe := some 10, haber := some 0,
    documento := some "D1", hora := some "10:00", otros := [] }

def resC7val : Resultado := (ejecutar pW mW encW [filaC7]).toOption.getD resDefecto

/-- Raw headers with the optional Hora column absent. -/
def encSinHora : List String := ["fecha", "cuenta", "debe", "haber", "documento"]

/-- An annotated row with its outlier flag cleared; every other field is
untouched, so equalities about those fields transfer through it. -/
def sinOutlier (g : FilaAnotada) : FilaAnotada := { g with outlier := false }

lemma sinOutlier_anotarSin (parse : String → Option ℤ) (tieneDoc : Bool)
    (filas : List Fila) (f : Fila) :
    sinOutlier (anotarSin parse tieneDoc filas f) = anotarSin parse tieneDoc filas f := by
  unfold sinOutlier anotarSin
  rfl

lemma repartir_length (esF : FilaAnotada → Bool) (gs : List FilaAnotada) :
    ∀ outs : List Bool, (repartir esF gs outs).length = gs.length := by
  induction gs with
  | nil => intro outs; rfl
  | cons g gs ih =>
    intro outs
    unfold repartir
    by_cases h : esF g
    · simp [h, ih]
    · simp [h, ih]

lemma repartir_get? (esF : FilaAnotada → Bool) (gs : List FilaAnotada) :
    ∀ (outs : List Bool) (i : ℕ),
      ((repartir esF gs outs).get? i).map sinOutlier = (gs.get? i).map sinOutlier := by
  induction gs with
  | nil => intro outs i; rfl
  | cons g gs ih =>
    intro outs i
    unfold repartir
    by_cases h : esF g
    · cases i with
      | zero => simp [h]; rfl
      | succ i => simpa [h] using ih (outs.drop 1) i
    · cases i with
      | zero => simp [h]
      | succ i => simpa [h] using ih outs i

lemma ejecutar_ok_filas (parse : String → Option ℤ) (modelo : List (ℤ × ℤ × ℤ) → List Bool)
    (encCrudos : List String) (filas : List Fila) (r : Resultado)
    (h : ejecutar parse modelo encCrudos filas = Except.ok r) :
    ∃ outs, r.filas = repartir esFeatureA
      (filas.map (anotarSin parse ((encCrudos.map renombrar).contains "Documento") filas))
      outs := by
  unfold ejecutar at h
  split at h
  · split at h
    · split at h
      · cases h
      · rename_i outs heq
        cases h
        exact ⟨outs, rfl⟩
    · cases h
  · cases h

lemma ejecutar_fila (parse : String → Option ℤ) (modelo : List (ℤ × ℤ × ℤ) → List Bool)
    (encCrudos : List String) (filas : List Fila) (r : Resultado)
    (h : ejecutar parse modelo encCrudos filas = Except.ok r) (i : ℕ) :
    (r.filas.get? i).map sinOutlier
      = (filas.get? i).map (anotarSin parse ((encCrudos.map renombrar).contains "Documento") filas) := by
  obtain ⟨outs, hr⟩ := ejecutar_ok_filas parse modelo encCrudos filas r h
  rw [hr, repartir_get?, List.get?_map]
  cases filas.get? i with
  | none => rfl
  | some f => exact congrArg some (sinOutlier_anotarSin _ _ _ _)

/-- On a successful run, the row at position i of the output is, up to
its outlier flag, the annotation of the row at position i of the input. -/
lemma campos_fila (parse : String → Option ℤ) (modelo : List (ℤ × ℤ × ℤ) → List Bool)
    (encCrudos : List String) (filas : List Fila) (r : Resultado) (i : ℕ)
    (f : Fila) (g : FilaAnotada)
    (h : ejecutar parse modelo encCrudos filas = Except.ok r)
    (hf : filas.get? i = some f) (hg : r.filas.get? i = some g) :
    sinOutlier g = anotarSin parse ((encCrudos.map renombrar).contains "Documento") filas f := by
  have hm := ejecutar_fila parse modelo encCrudos filas r h i
  rw [hf, hg] at hm
  exact Option.some.inj hm

/-- A list whose filter by p has at least two elements, one of them
sitting at position i, also satisfies p at some other position, and
conversely. -/
lemma dos_en_filtro {α : Type} (p : α → Bool) (l : List α) (i : ℕ) (a : α)
    (ha : l.get? i = some a) (hpa : p a = true) :
    2 ≤ (l.filter p).length ↔ ∃ j b, j ≠ i ∧ l.get? j = some b ∧ p b = true := by
  have hi : i < l.length := by
    by_contra hcon
    rw [List.get?_eq_none.mpr (Nat.le_of_not_lt hcon)] at ha
    cases ha
  have hgi : l.get ⟨i, hi⟩ = a := by
    have hq := List.get?_eq_get hi
    rw [ha] at hq
    exact (Option.some.inj hq).symm
  have hsplit : l = l.take i ++ a :: l.drop (i + 1) := by
    calc l = l.take i ++ l.drop i := (List.take_append_drop i l).symm
    _ = l.take i ++ a :: l.drop (i + 1) := by
      rw [List.drop_eq_get_cons hi, hgi]
  have hlen : (l.filter p).length
      = ((l.take i).filter p).length + ((l.drop (i + 1)).filter p).length + 1 := by
    conv_lhs => rw [hsplit]
    rw [List.filter_append, List.length_append, List.filter_cons_of_pos hpa,
      List.length_cons]
    omega
  constructor
  · intro h2
    have hpos : 0 < ((l.take i).filter p).length ∨ 0 < ((l.drop (i + 1)).filter p).length := by
      omega
    rcases hpos with hpos | hpos
    · obtain ⟨b, hb⟩ := List.length_pos_iff_exists_mem.mp hpos
      obtain ⟨hmem, hpb⟩ := List.mem_filter.mp hb
      obtain ⟨j, hj⟩ := List.mem_iff_get?.mp hmem
      have hjlen : j < (l.take i).length := by
        obtain ⟨hw, _⟩ := List.get?_eq_some.mp hj
        exact hw
      have hjlt : j < i := by
        rw [List.length_take] at hjlen
        omega
      refine ⟨j, b, by omega, ?_, hpb⟩
      rw [← List.get?_take hjlt]
      exact hj
    · obtain ⟨b, hb⟩ := List.length_pos_iff_exists_mem.mp hpos
      obtain ⟨hmem, hpb⟩ := List.mem_filter.mp hb
      obtain ⟨j, hj⟩ := List.mem_iff_get?.mp hmem
      rw [List.get?_drop] at hj
      exact ⟨i + 1 + j, b, by omega, hj, hpb⟩
  · rintro ⟨j, b, hne, hj, hpb⟩
    rcases Nat.lt_or_ge j i with hlt | hge
    · have hmem : b ∈ (l.take i).filter p := by
        rw [List.mem_filter]
        refine ⟨?_, hpb⟩
        apply List.mem_iff_get?.mpr
        exact ⟨j, by rw [List.get?_take hlt]; exact hj⟩
      have hpos := List.length_pos_iff_exists_mem.mpr ⟨b, hmem⟩
      omega
    · have hgt : i < j := by omega
      have hmem : b ∈ (l.drop (i + 1)).filter p := by
        rw [List.mem_filter]
        refine ⟨?_, hpb⟩
        apply List.mem_iff_get?.mpr
        refine ⟨j - (i + 1), ?_⟩
        rw [List.get?_drop]
        have hj' : i + 1 + (j - (i + 1)) = j := by omega
        rw [hj']
        exact hj
      have hpos := List.length_pos_iff_exists_mem.mpr ⟨b, hmem⟩
      omega

/-- Characterization of the out-of-hours flag as a function of the
normalized hour. -/
lemma fueraHorario_caracterizacion (hn : Option ℤ) :
    (fueraHorarioDe hn = true ↔ ∃ v, hn = some v ∧ (v < 8 ∨ 18 < v))
    ∧ (hn = none → fueraHorarioDe hn = false) := by
  cases hn with
  | none => simp [fueraHorarioDe]
  | some v => simp [fueraHorarioDe]

/-- C1: when at least one required canonical column is missing after
header trimming, lowercasing and synonym mapping, the run aborts with
the schema error before producing any annotated output, and the error
carries exactly the missing canonical column names. -/
theorem c1_esquema (parse : String → Option ℤ) (modelo : List (ℤ × ℤ × ℤ) → List Bool)
    (encCrudos : List String) (filas : List Fila)
    (h : faltan_obligatorias (encCrudos.map renombrar) ≠ []) :
    ejecutar parse modelo encCrudos filas
      = Except.error (Err.schema (faltan_obligatorias (encCrudos.map renombrar)))
    ∧ ∀ c, c ∈ faltan_obligatorias (encCrudos.map renombrar)
        ↔ (c ∈ columnas_obligatorias ∧ (encCrudos.map renombrar).contains c = false) := by
  constructor
  · unfold ejecutar
    rw [if_neg h]
  · intro c
    unfold faltan_obligatorias
    rw [List.mem_filter]
    simp only [Bool.not_eq_true']

/-- Witness for C1: headers lacking the Debe and Haber columns abort
with the schema error naming exactly those two canonical columns. -/
theorem c1_esquema_witness :
    ejecutar pW mW ["fecha", "cuenta"] [] = Except.error (Err.schema ["Debe", "Haber"]) := by
  have h := (c1_esquema pW mW ["fecha", "cuenta"] [] (by decide)).1
  exact h.trans (by rfl)

/-- C2 (amended): whenever the run completes successfully the annotated
output has exactly as many rows as the input.  A dataset whose Cuenta
values are string identifiers does not complete: the scaler stage aborts
the run, as the counterexample shows. -/
theorem c2_conteo_filas (parse : String → Option ℤ) (modelo : List (ℤ × ℤ × ℤ) → List Bool)
    (encCrudos : List String) (filas : List Fila) (r : Resultado)
    (h : ejecutar parse modelo encCrudos filas = Except.ok r) :
    r.filas.length = filas.length := by
  obtain ⟨outs, hr⟩ := ejecutar_ok_filas parse modelo encCrudos filas r h
  rw [hr, repartir_length, List.length_map]

/-- Witness for C2 at the five-row sample dataset. -/
theorem c2_conteo_filas_witness : resWval.filas.length = 5 := by
  have h := c2_conteo_filas pW mW encW filasW resWval (by rfl)
  exact h.trans (by rfl)

/-- Counterexample to C2 as stated: this dataset has every required
column present but its Cuenta value is the string "ABC"; the run aborts
with a conversion error instead of completing with an annotated row. -/
theorem c2_cuenta_texto_counterexample :
    ejecutar pW mW encW [filaCstr]
      = Except.error (Err.valor "could not convert string to float") := by rfl

/-- C6: with the optional Hora column absent the run does not complete
with a warning as the claim states: normalizar_hora reads the Hora
column unconditionally (line 100), so the run aborts with a KeyError,
caught by the blanket handler, and no annotated output is produced. -/
theorem c6_hora_ausente :
    ejecutar pW mW encSinHora [filaC7] = Except.error (Err.clave "Hora") := by rfl

/-- C7 (amended): with required columns present, the Hora column
present, and a nonempty all-numeric feature matrix the run completes
with the annotated output; in particular a one-row, zero-variance
feature matrix does not crash the detector stage.  An empty feature
matrix instead aborts the whole run, as the counterexample shows. -/
theorem c7_degenerado (parse : String → Option ℤ) (modelo : List (ℤ × ℤ × ℤ) → List Bool)
    (encCrudos : List String) (filas : List Fila)
    (h1 : faltan_obligatorias (encCrudos.map renombrar) = [])
    (h2 : (encCrudos.map renombrar).contains "Hora" = true)
    (h3 : features parse filas ≠ [])
    (h4 : ∀ t ∈ features parse filas, esTexto t.2.1 = false) :
    ejecutar parse modelo encCrudos filas
      = Except.ok
        { faltanOpcionales := faltan_opcionales (encCrudos.map renombrar)
          columnasExtra := columnas_extra (encCrudos.map renombrar)
          filas := repartir esFeatureA
            (filas.map (anotarSin parse ((encCrudos.map renombrar).contains "Documento") filas))
            (modelo ((features parse filas).map (fun t => (t.1, celdaNum t.2.1, t.2.2)))) } := by
  have hne : (features parse filas).isEmpty = false := by
    cases hq : features parse filas with
    | nil => exact absurd hq h3
    | cons a l => rfl
  have hany : (features parse filas).any (fun t => esTexto t.2.1) = false := by
    rw [List.any_eq_false]
    intro t ht
    simp [h4 t ht]
  unfold ejecutar puntuar
  rw [if_pos h1, if_pos h2, if_neg (by simp [hne]), if_neg (by simp [hany])]

/-- Counterexample to C7 as stated: when every date fails to parse the
feature matrix is empty and the run aborts with the scaler error,
producing no annotated output at all. -/
theorem c7_matriz_vacia_counterexample :
    ejecutar pW mW encW [filaCmal]
      = Except.error (Err.valor "Found array with 0 samples") := by rfl

/-- Witness for C7: a one-row dataset, hence a degenerate zero-variance
one-row feature matrix, completes with an annotated output. -/
theorem c7_degenerado_witness :
    ejecutar pW mW encW [filaC7] = Except.ok resC7val := by
  have h := c7_degenerado pW mW encW [filaC7] (by rfl) (by rfl) (by decide) (by decide)
  exact h.trans (by rfl)

def gW0 : FilaAnotada := resWval.filas.getD 0 filaAnotadaDef

def gW4 : FilaAnotada := resWval.filas.getD 4 filaAnotadaDef

def gC3a : FilaAnotada := resC3val.filas.getD 0 filaAnotadaDef

/-- C3 (amended): the derived Importe is the row-wise maximum of the
present amounts, a missing side being skipped; when both amounts are
missing it is missing rather than zero; and it is non-negative whenever
every present amount is non-negative. -/
theorem c3_importe (parse : String → Option ℤ) (modelo : List (ℤ × ℤ × ℤ) → List Bool)
    (encCrudos : List String) (filas : List Fila) (r : Resultado) (i : ℕ)
    (f : Fila) (g : FilaAnotada)
    (h : ejecutar parse modelo encCrudos filas = Except.ok r)
    (hf : filas.get? i = some f) (hg : r.filas.get? i = some g) :
    g.importe = maxSkipna f.debe f.haber
    ∧ (f.debe = none ∧ f.haber = none → g.importe = none)
    ∧ ((∀ x ∈ f.debe, 0 ≤ x) → (∀ x ∈ f.haber, 0 ≤ x) → ∀ x ∈ g.importe, 0 ≤ x) := by
  have he := campos_fila parse modelo encCrudos filas r i f g h hf hg
  have himp : g.importe = maxSkipna f.debe f.haber := by
    have hpr : (sinOutlier g).importe = g.importe := rfl
    rw [← hpr, he]
    rfl
  refine ⟨himp, ?_, ?_⟩
  · rintro ⟨hd, hh⟩
    rw [himp, hd, hh]
    rfl
  · intro hd hh x hx
    rw [himp] at hx
    rcases hcd : f.debe with _ | a <;> rcases hch : f.haber with _ | b <;>
        rw [hcd, hch] at hx <;> simp [maxSkipna, Option.mem_def] at hx
    · subst hx
      exact hh b (by simp [hch])
    · subst hx
      exact hd a (by simp [hcd])
    · subst hx
      exact le_trans (hd a (by simp [hcd])) (le_max_left a b)

/-- Counterexample to C3 as stated: in this dataset the first row has
both amounts missing and its derived Importe is missing, not zero, while
the second row derives the negative amount -5. -/
theorem c3_importe_counterexample :
    (ejecutar pW mW encW filasC3).map (fun r => r.filas.map (fun g => g.importe))
      = Except.ok [none, some (-5), some 5]
    ∧ (none : Option ℤ) ≠ some 0 := by
  exact ⟨by rfl, by decide⟩

/-- Witness for C3 at the first row of that dataset: both amounts
missing gives a missing Importe. -/
theorem c3_importe_witness : gC3a.importe = none := by
  have h := (c3_importe pW mW encW filasC3 resC3val 0 filaC3a gC3a (by rfl) (by rfl)
    (by rfl)).2.1
  exact h ⟨rfl, rfl⟩

/-- C4: the out-of-hours flag of a row is true exactly when its
normalized hour is present and below 8 or above 18; in particular a
missing normalized hour never flags the row. -/
theorem c4_fuera_horario (parse : String → Option ℤ) (modelo : List (ℤ × ℤ × ℤ) → List Bool)
    (encCrudos : List String) (filas : List Fila) (r : Resultado) (i : ℕ)
    (f : Fila) (g : FilaAnotada)
    (h : ejecutar parse modelo encCrudos filas = Except.ok r)
    (hf : filas.get? i = some f) (hg : r.filas.get? i = some g) :
    (g.fueraHorario = true ↔ ∃ v, g.horaNormalizada = some v ∧ (v < 8 ∨ 18 < v))
    ∧ (g.horaNormalizada = none → g.fueraHorario = false) := by
  have he := campos_fila parse modelo encCrudos filas r i f g h hf hg
  have h1 : g.horaNormalizada = parse_hora (valorHora f.hora) := by
    have hpr : (sinOutlier g).horaNormalizada = g.horaNormalizada := rfl
    rw [← hpr, he]
    rfl
  have h2 : g.fueraHorario = fueraHorarioDe (parse_hora (valorHora f.hora)) := by
    have hpr : (sinOutlier g).fueraHorario = g.fueraHorario := rfl
    rw [← hpr, he]
    rfl
  rw [h1, h2]
  exact fueraHorario_caracterizacion (parse_hora (valorHora f.hora))

/-- Witness for C4 at the sample row with unparseable time "abc": the
normalized hour is missing and the row is not flagged. -/
theorem c4_fuera_horario_witness :
    gW4.horaNormalizada = none ∧ gW4.fueraHorario = false := by
  have h := (c4_fuera_horario pW mW encW filasW resWval 4 filaW4 gW4 (by rfl) (by rfl)
    (by rfl)).2
  exact ⟨by rfl, h (by rfl)⟩

/-- C5: the time normalizer applies its rules in order: a value with a
colon goes through the HH:MM parser and yields the hour component;
otherwise an all-digit value longer than two characters is
integer-divided by 100; otherwise a direct integer parse; "930" gives 9,
"7" gives 7 and "abc" gives none, every failure yielding none instead of
raising. -/
theorem c5_normalizar_hora :
    (∀ s : String, s.data.contains ':' = true → parse_hora s = parse_hhmm s)
    ∧ (∀ s : String, s.data.contains ':' = false →
        (esDigitos s && decide (2 < s.data.length)) = true →
        parse_hora s = some ((valorNatDe s.data : ℤ) / 100))
    ∧ (∀ s : String, s.data.contains ':' = false →
        (esDigitos s && decide (2 < s.data.length)) = false →
        parse_hora s = int_py s)
    ∧ parse_hora "930" = some 9 ∧ parse_hora "7" = some 7 ∧ parse_hora "abc" = none := by
  refine ⟨?_, ?_, ?_, by rfl, by rfl, by rfl⟩
  · intro s hs
    unfold parse_hora
    rw [if_pos hs]
  · intro s hs hd
    unfold parse_hora
    rw [if_neg (by rw [hs]; exact Bool.false_ne_true), if_pos hd]
  · intro s hs hd
    unfold parse_hora
    rw [if_neg (by rw [hs]; exact Bool.false_ne_true),
      if_neg (by rw [hd]; exact Bool.false_ne_true)]

/-- Witness for C5: "0745" is all digits and longer than two characters,
so the compact-digit rule applies and gives hour 7. -/
theorem c5_normalizar_hora_witness :
    parse_hora "0745" = some ((valorNatDe "0745".data : ℤ) / 100)
    ∧ parse_hora "0745" = some 7 := by
  have h := c5_normalizar_hora.2.1 "0745" (by rfl) (by rfl)
  exact ⟨h, h.trans (by rfl)⟩

/-- C8: with the Documento column present a row is flagged duplicate
exactly when some other row shares its key (raw Fecha, Cuenta, Importe,
Documento), so every member of a duplicate group is marked; with the
Documento column absent no row is flagged. -/
theorem c8_duplicado (parse : String → Option ℤ) (modelo : List (ℤ × ℤ × ℤ) → List Bool)
    (encCrudos : List String) (filas : List Fila) (r : Resultado) (i : ℕ)
    (f : Fila) (g : FilaAnotada)
    (h : ejecutar parse modelo encCrudos filas = Except.ok r)
    (hf : filas.get? i = some f) (hg : r.filas.get? i = some g) :
    ((encCrudos.map renombrar).contains "Documento" = true →
      (g.duplicado = true ↔
        ∃ j f', j ≠ i ∧ filas.get? j = some f' ∧ claveDup f' = claveDup f))
    ∧ ((encCrudos.map renombrar).contains "Documento" = false → g.duplicado = false) := by
  have he := campos_fila parse modelo encCrudos filas r i f g h hf hg
  have hdup : g.duplicado
      = (if (encCrudos.map renombrar).contains "Documento" then duplicadoDe filas f
         else false) := by
    have hpr : (sinOutlier g).duplicado = g.duplicado := rfl
    rw [← hpr, he]
    rfl
  constructor
  · intro hdoc
    rw [hdup, if_pos hdoc]
    unfold duplicadoDe
    rw [decide_eq_true_eq]
    rw [dos_en_filtro (fun g2 => decide (claveDup g2 = claveDup f)) filas i f hf (by simp)]
    constructor
    · rintro ⟨j, b, hne, hj, hpb⟩
      exact ⟨j, b, hne, hj, of_decide_eq_true hpb⟩
    · rintro ⟨j, b, hne, hj, hpb⟩
      exact ⟨j, b, hne, hj, decide_eq_true hpb⟩
  · intro hdoc
    rw [hdup, hdoc]
    rfl

/-- Witness for C8: the first sample row is flagged duplicate because
the second sample row shares its key. -/
theorem c8_duplicado_witness : gW0.duplicado = true := by
  have h := (c8_duplicado pW mW encW filasW resWval 0 filaW0 gW0 (by rfl) (by rfl)
    (by rfl)).1 (by rfl)
  exact h.mpr ⟨1, filaW0, by decide, by rfl, rfl⟩

/-- C9 (amended): a row is flagged rounded exactly when the astype(str)
text of its Importe, which depends on the dtype of the amount columns,
ends with "000" or with "99".  With no missing amount cell the columns
are int64, the text is the decimal numeral, and amount 1000 is flagged
while 1500 is not; with a missing amount cell anywhere the columns are
float64, a present amount gains a ".0" suffix and an amount of 1000 is
not flagged. -/
theorem c9_redondeado (parse : String → Option ℤ) (modelo : List (ℤ × ℤ × ℤ) → List Bool)
    (encCrudos : List String) (filas : List Fila) (r : Resultado) (i : ℕ)
    (f : Fila) (g : FilaAnotada)
    (h : ejecutar parse modelo encCrudos filas = Except.ok r)
    (hf : filas.get? i = some f) (hg : r.filas.get? i = some g) :
    (g.redondeado = true ↔
      (terminaEn (textoImporte (esFlotante filas) g.importe) "000" = true
        ∨ terminaEn (textoImporte (esFlotante filas) g.importe) "99" = true))
    ∧ redondeadoDe false (some 1000) = true
    ∧ redondeadoDe false (some 1500) = false
    ∧ redondeadoDe true (some 1000) = false := by
  have he := campos_fila parse modelo encCrudos filas r i f g h hf hg
  have himp : g.importe = importeDe f := by
    have hpr : (sinOutlier g).importe = g.importe := rfl
    rw [← hpr, he]
    rfl
  have hred : g.redondeado = redondeadoDe (esFlotante filas) g.importe := by
    have hpr : (sinOutlier g).redondeado = g.redondeado := rfl
    rw [← hpr, he, himp]
    rfl
  refine ⟨?_, by rfl, by rfl, by rfl⟩
  rw [hred]
  unfold redondeadoDe
  rw [Bool.or_eq_true]

/-- Counterexample to C9 as stated: the sample dataset has a row with
both amounts missing, which makes the amount columns float64; the rows
with amount 1000 then print as "1000.0" and are not flagged, although
the claim says an amount of 1000 is flagged. -/
theorem c9_redondeado_counterexample :
    (ejecutar pW mW encW filasW).map
        (fun r => r.filas.map (fun g => (g.importe, g.redondeado)))
      = Except.ok [(some 1000, false), (some 1000, false), (some 1000, false),
          (some 1500, false), (none, false)] := by rfl

/-- Witness for C9 at the first sample row: its amount is 1000 but the
float64 text "1000.0" ends in neither "000" nor "99", so it is not
flagged. -/
theorem c9_redondeado_witness :
    gW0.importe = some 1000 ∧ gW0.redondeado = false := by
  have h := (c9_redondeado pW mW encW filasW resWval 0 filaW0 gW0 (by rfl) (by rfl)
    (by rfl)).1
  refine ⟨by rfl, ?_⟩
  have hne : ¬(terminaEn (textoImporte (esFlotante filasW) gW0.importe) "000" = true
      ∨ terminaEn (textoImporte (esFlotante filasW) gW0.importe) "99" = true) := by decide
  cases hb : gW0.redondeado with
  | false => rfl
  | true => exact absurd (h.mp hb) hne

/-- C10 (amended): every original column except Fecha is carried into
the annotated output unchanged and the seven derived fields are added,
but the Fecha column is overwritten with its parsed value (missing when
unparseable), so the original Fecha text is not preserved. -/
theorem c10_columnas (parse : String → Option ℤ) (modelo : List (ℤ × ℤ × ℤ) → List Bool)
    (encCrudos : List String) (filas : List Fila) (r : Resultado) (i : ℕ)
    (f : Fila) (g : FilaAnotada)
    (h : ejecutar parse modelo encCrudos filas = Except.ok r)
    (hf : filas.get? i = some f) (hg : r.filas.get? i = some g) :
    g.cuenta = f.cuenta ∧ g.debe = f.debe ∧ g.haber = f.haber
    ∧ g.documento = f.documento ∧ g.hora = f.hora ∧ g.otros = f.otros
    ∧ g.fecha = (match parse f.fecha with
        | some d => ValorFecha.marca d
        | none => ValorFecha.nulo)
    ∧ g.horaNormalizada = parse_hora (valorHora f.hora)
    ∧ g.importe = importeDe f
    ∧ g.redondeado = redondeadoDe (esFlotante filas) (importeDe f)
    ∧ g.fueraHorario = fueraHorarioDe (parse_hora (valorHora f.hora))
    ∧ g.fechaNum = fechaNumDe parse filas f := by
  have he := campos_fila parse modelo encCrudos filas r i f g h hf hg
  exact ⟨congrArg FilaAnotada.cuenta he, congrArg FilaAnotada.debe he,
    congrArg FilaAnotada.haber he, congrArg FilaAnotada.documento he,
    congrArg FilaAnotada.hora he, congrArg FilaAnotada.otros he,
    congrArg FilaAnotada.fecha he, congrArg FilaAnotada.horaNormalizada he,
    congrArg FilaAnotada.importe he, congrArg FilaAnotada.redondeado he,
    congrArg FilaAnotada.fueraHorario he, congrArg FilaAnotada.fechaNum he⟩

/-- Counterexample to C10 as stated: the run on the sample dataset
replaces the uploaded Fecha text "2024-01-01" by its parsed value, so an
original column is overwritten rather than preserved. -/
theorem c10_fecha_counterexample :
    (ejecutar pW mW encW filasW).map (fun r => r.filas.map (fun g => g.fecha))
      = Except.ok [ValorFecha.marca 0, ValorFecha.marca 0, ValorFecha.marca 1,
          ValorFecha.marca 2, ValorFecha.marca 0]
    ∧ ValorFecha.marca 0 ≠ ValorFecha.texto "2024-01-01" := by
  exact ⟨by rfl, by decide⟩

/-- Witness for C10 at the first sample row: untouched original columns
and the overwritten Fecha. -/
theorem c10_columnas_witness :
    gW0.cuenta = Celda.num 100 ∧ gW0.debe = some 1000 ∧ gW0.fecha = ValorFecha.marca 0 := by
  have h := c10_columnas pW mW encW filasW resWval 0 filaW0 gW0 (by rfl) (by rfl) (by rfl)
  exact ⟨h.1.trans (by rfl), h.2.1.trans (by rfl), h.2.2.2.2.2.2.1.trans (by rfl)⟩

end AuditorIA
